import Mathlib

/-!
Verification of the conv_editor export pipeline: the conversation encoder
(src/conv_editor/export/exporter.py), the ragged dataset writer
(src/conv_editor/export/hdf5_writer.py) and the export worker loop
(src/conv_editor/workers/export_worker.py), shallowly embedded in Lean.

Token ids are modelled as `Int` (the stored dtype is int32; all ids produced
by real tokenizers and the ignore sentinel -100 are far from the int32
bounds, and no arithmetic is performed on ids, so no wrap-around modelling
is needed).  The external tokenizer (`tokenizers.Tokenizer.encode`) and the
JSON dumping of pydantic models (`json.dumps(model_dump(...))`) are opaque
collaborators, modelled as function-valued parameters.
-/

/-! ## Data model (src/conv_editor/core/models.py) -/

/-- Json values, modelling the `Any`-typed payloads inside tool calls and
tool results. -/
inductive Json where
  | null
  | bool (b : Bool)
  | num (n : Int)
  | str (s : String)
  | arr (elems : List Json)
  | obj (fields : List (String × Json))

/-- models.py TextSegment: a span of text with a learnability flag. -/
structure TextSegment where
  text : String
  learnable : Bool := true

/-- models.py ToolProperty.type is Union[str, List[str]]. -/
inductive ToolPropertyType where
  | single (s : String)
  | several (l : List String)

/-- models.py ToolProperty. -/
structure ToolProperty where
  type : ToolPropertyType
  description : String
  enum : Option (List String) := none

/-- models.py ToolParameters (the "object" literal tag is implicit). -/
structure ToolParameters where
  properties : List (String × ToolProperty)
  required : List String := []

/-- models.py ToolDefinition (the "function" literal tag is implicit). -/
structure ToolDefinition where
  name : String
  description : String
  parameters : ToolParameters

/-- models.py ToolCall. -/
structure ToolCall where
  name : String
  arguments : List (String × Json)

/-- models.py ToolResult. -/
structure ToolResult where
  name : String
  content : Json

/-- models.py ContentItem: the closed discriminated union over the five
content-block kinds, discriminated by the `type` field
("text" | "reason" | "tools" | "tool_call" | "tool_response"). -/
inductive ContentItem where
  | text (segments : List TextSegment)
  | reason (segments : List TextSegment)
  | tools (definitions : List ToolDefinition)
  | tool_call (calls : List ToolCall)
  | tool_response (results : List ToolResult)

/-- models.py Item: one conversation turn. -/
structure Item where
  role : String
  content : List ContentItem

/-- models.py ConversationData = List[Item]. -/
abbrev ConversationData := List Item

/-! ## Export configuration (src/conv_editor/export/config.py) -/

/-- config.py SpecialTokensConfig, with its default token strings. -/
structure SpecialTokensConfig where
  bos : String := "<|begin_of_text|>"
  eot : String := "<|eot_id|>"
  header_start : String := "<|start_header_id|>"
  header_end : String := "<|end_header_id|>"
  think_start : String := "<think>"
  think_end : String := "</think>"
  tools_start : String := "<tools>"
  tools_end : String := "</tools>"
  tool_call_start : String := "<tool_call>"
  tool_call_end : String := "</tool_call>"
  tool_response_start : String := "<tool_response>"
  tool_response_end : String := "</tool_response>"

/-- config.py ExportConfig (the three filesystem paths are handled by the
worker model, which receives file contents directly). -/
structure ExportConfig where
  include_reasoning : Bool := true
  special_tokens : SpecialTokensConfig := {}
  cross_entropy_ignore_index : Int := -100
  assistant_name : String := "assistant"

/-! ## External collaborators -/

/-- The tokenizer adapter: `tokenizer.encode(text, add_special_tokens=False).ids`.
A pure text-to-ids function; the repository treats it as an opaque service. -/
structure Tokenizer where
  encode : String → List Int

/-- The JSON dumping of pydantic models used by the three serializer helpers
of exporter.py: each field models one
`json.dumps(x.model_dump(exclude_none=True), separators=(",", ":"))` shape.
Opaque, like the tokenizer. -/
structure JsonLib where
  dumpToolDefinitions : List ToolDefinition → String
  dumpToolCall : ToolCall → String
  dumpToolResults : List ToolResult → String

/-! ## Conversation encoder (src/conv_editor/export/exporter.py) -/

/-- exporter.py TrainingExporter(tokenizer, config), plus the json library it
uses for serialization. -/
structure TrainingExporter where
  tokenizer : Tokenizer
  jsonLib : JsonLib
  config : ExportConfig

/-- exporter.py _serialize_tools (happy path; the except-branch fallback for a
failing json.dumps cannot arise for the pure model of json.dumps). -/
def TrainingExporter.serialize_tools (e : TrainingExporter) (definitions : List ToolDefinition) : String :=
  e.config.special_tokens.tools_start ++ e.jsonLib.dumpToolDefinitions definitions
    ++ e.config.special_tokens.tools_end

/-- exporter.py _serialize_tool_calls: each call wrapped individually, joined
with a newline. -/
def TrainingExporter.serialize_tool_calls (e : TrainingExporter) (calls : List ToolCall) : String :=
  String.intercalate "\n"
    (calls.map fun c =>
      e.config.special_tokens.tool_call_start ++ e.jsonLib.dumpToolCall c
        ++ e.config.special_tokens.tool_call_end)

/-- exporter.py _serialize_tool_results. -/
def TrainingExporter.serialize_tool_results (e : TrainingExporter) (results : List ToolResult) : String :=
  e.config.special_tokens.tool_response_start ++ e.jsonLib.dumpToolResults results
    ++ e.config.special_tokens.tool_response_end

/-- Concatenates a list of (ids, labels) emission pairs componentwise; this is
the pure counterpart of the Python code extending the two shared accumulator
lists `all_input_ids` / `all_labels` once per emission, in order. -/
def concatPairs : List (List Int × List Int) → List Int × List Int
  | [] => ([], [])
  | p :: ps => (p.1 ++ (concatPairs ps).1, p.2 ++ (concatPairs ps).2)

/-- exporter.py _process_item, Text branch, one segment (lines 82-88):
ids are the segment's tokens; labels copy the ids iff
`segment.learnable and is_assistant_turn`, else the ignore sentinel. -/
def textSegmentPair (tok : Tokenizer) (ignoreIdx : Int) (isAssistantTurn : Bool)
    (s : TextSegment) : List Int × List Int :=
  let ids := tok.encode s.text
  (ids, if s.learnable && isAssistantTurn then ids else List.replicate ids.length ignoreIdx)

/-- exporter.py _process_item, Reasoning branch, one interior segment
(lines 96-102): labels copy the ids iff `segment.learnable` — the role is not
consulted. -/
def reasonSegmentPair (tok : Tokenizer) (ignoreIdx : Int) (s : TextSegment) :
    List Int × List Int :=
  let ids := tok.encode s.text
  (ids, if s.learnable then ids else List.replicate ids.length ignoreIdx)

/-- exporter.py _process_item, the per-content-block dispatch (lines 80-124).
`role` is the containing item's role. -/
def TrainingExporter.process_content_part (e : TrainingExporter) (role : String) :
    ContentItem → List Int × List Int
  | ContentItem.text segments =>
      concatPairs (segments.map
        (textSegmentPair e.tokenizer e.config.cross_entropy_ignore_index
          (role == e.config.assistant_name)))
  | ContentItem.reason segments =>
      if e.config.include_reasoning then
        let ts := e.tokenizer.encode e.config.special_tokens.think_start
        let inner := concatPairs (segments.map
          (reasonSegmentPair e.tokenizer e.config.cross_entropy_ignore_index))
        let te := e.tokenizer.encode (e.config.special_tokens.think_end ++ "\n")
        (ts ++ inner.1 ++ te, ts ++ inner.2 ++ te)
      else ([], [])
  | ContentItem.tools definitions =>
      let ids := e.tokenizer.encode (e.serialize_tools definitions ++ "\n")
      (ids, List.replicate ids.length e.config.cross_entropy_ignore_index)
  | ContentItem.tool_call calls =>
      let ids := e.tokenizer.encode (e.serialize_tool_calls calls ++ "\n")
      (ids, ids)
  | ContentItem.tool_response results =>
      let ids := e.tokenizer.encode (e.serialize_tool_results results ++ "\n")
      (ids, List.replicate ids.length e.config.cross_entropy_ignore_index)

/-- exporter.py _process_item (lines 71-131): header (always ignore-labeled),
then the content blocks in order, then the end-of-turn token whose labels copy
the ids iff the item's role is the configured assistant name. -/
def TrainingExporter.process_item (e : TrainingExporter) (item : Item) : List Int × List Int :=
  let ignoreIdx := e.config.cross_entropy_ignore_index
  let header := e.tokenizer.encode
    (e.config.special_tokens.header_start ++ item.role ++ e.config.special_tokens.header_end ++ "\n")
  let body := concatPairs (item.content.map (e.process_content_part item.role))
  let eot := e.tokenizer.encode e.config.special_tokens.eot
  (header ++ body.1 ++ eot,
   List.replicate header.length ignoreIdx ++ body.2
     ++ (if item.role == e.config.assistant_name then eot else List.replicate eot.length ignoreIdx))

/-- exporter.py process_conversation (lines 55-69): begin-of-text ids (all
ignore-labeled) followed by every item's emission in order. -/
def TrainingExporter.process_conversation (e : TrainingExporter) (conv : ConversationData) :
    List Int × List Int :=
  let bos := e.tokenizer.encode e.config.special_tokens.bos
  let body := concatPairs (conv.map e.process_item)
  (bos ++ body.1,
   List.replicate bos.length e.config.cross_entropy_ignore_index ++ body.2)

/-! ## Basic shape lemmas for the encoder -/

theorem concatPairs_cons (p : List Int × List Int) (ps : List (List Int × List Int)) :
    concatPairs (p :: ps) = (p.1 ++ (concatPairs ps).1, p.2 ++ (concatPairs ps).2) := rfl

theorem concatPairs_append (xs ys : List (List Int × List Int)) :
    concatPairs (xs ++ ys)
      = ((concatPairs xs).1 ++ (concatPairs ys).1, (concatPairs xs).2 ++ (concatPairs ys).2) := by
  induction xs with
  | nil => simp [concatPairs]
  | cons p ps ih => simp [concatPairs, ih]

theorem concatPairs_len (ps : List (List Int × List Int))
    (h : ∀ p ∈ ps, p.2.length = p.1.length) :
    (concatPairs ps).2.length = (concatPairs ps).1.length := by
  induction ps with
  | nil => rfl
  | cons p ps ih =>
      simp only [concatPairs, List.length_append]
      rw [h p (List.mem_cons_self p ps), ih (fun q hq => h q (List.mem_cons_of_mem p hq))]

theorem textSegmentPair_len (tok : Tokenizer) (ignoreIdx : Int) (a : Bool) (s : TextSegment) :
    (textSegmentPair tok ignoreIdx a s).2.length = (textSegmentPair tok ignoreIdx a s).1.length := by
  simp only [textSegmentPair]
  split <;> simp

theorem reasonSegmentPair_len (tok : Tokenizer) (ignoreIdx : Int) (s : TextSegment) :
    (reasonSegmentPair tok ignoreIdx s).2.length = (reasonSegmentPair tok ignoreIdx s).1.length := by
  simp only [reasonSegmentPair]
  split <;> simp

theorem process_content_part_len (e : TrainingExporter) (role : String) (c : ContentItem) :
    (e.process_content_part role c).2.length = (e.process_content_part role c).1.length := by
  cases c with
  | text segments =>
      simp only [TrainingExporter.process_content_part]
      exact concatPairs_len _ (by
        intro p hp
        obtain ⟨s, _, rfl⟩ := List.mem_map.mp hp
        exact textSegmentPair_len _ _ _ _)
  | reason segments =>
      simp only [TrainingExporter.process_content_part]
      split
      · have h := concatPairs_len (segments.map
          (reasonSegmentPair e.tokenizer e.config.cross_entropy_ignore_index)) (by
            intro p hp
            obtain ⟨s, _, rfl⟩ := List.mem_map.mp hp
            exact reasonSegmentPair_len _ _ _)
        simp [h]
      · rfl
  | tools definitions => simp [TrainingExporter.process_content_part]
  | tool_call calls => simp [TrainingExporter.process_content_part]
  | tool_response results => simp [TrainingExporter.process_content_part]

theorem process_item_len (e : TrainingExporter) (item : Item) :
    (e.process_item item).2.length = (e.process_item item).1.length := by
  have hbody := concatPairs_len (item.content.map (e.process_content_part item.role)) (by
    intro p hp
    obtain ⟨c, _, rfl⟩ := List.mem_map.mp hp
    exact process_content_part_len _ _ _)
  simp only [TrainingExporter.process_item, List.length_append, List.length_replicate, hbody]
  split <;> simp

theorem process_conversation_len (e : TrainingExporter) (conv : ConversationData) :
    (e.process_conversation conv).2.length = (e.process_conversation conv).1.length := by
  have hbody := concatPairs_len (conv.map e.process_item) (by
    intro p hp
    obtain ⟨it, _, rfl⟩ := List.mem_map.mp hp
    exact process_item_len _ _)
  simp [TrainingExporter.process_conversation, hbody]

/-- C1: for every conversation and configuration (and any tokenizer and json
serializer), the record returned by TrainingExporter.process_conversation has
input_ids and labels sequences of equal length. -/
theorem C1_record_lengths_equal (e : TrainingExporter) (conv : ConversationData) :
    (e.process_conversation conv).1.length = (e.process_conversation conv).2.length :=
  (process_conversation_len e conv).symm

/-! ## Pointwise label/ids alignment (for the implicit invariant C10) -/

/-- Every label is either the given sentinel or equal to the co-positioned
input id, and the two lists have the same length. -/
def Aligned (ignoreIdx : Int) : List Int → List Int → Prop
  | [], [] => True
  | a :: xs, b :: ys => (b = ignoreIdx ∨ b = a) ∧ Aligned ignoreIdx xs ys
  | _, _ => False

theorem Aligned.append {ignoreIdx : Int} :
    ∀ {xs ys zs ws : List Int}, Aligned ignoreIdx xs ys → Aligned ignoreIdx zs ws →
      Aligned ignoreIdx (xs ++ zs) (ys ++ ws)
  | [], [], _, _, _, h2 => h2
  | a :: xs, b :: ys, _, _, h1, h2 => ⟨h1.1, Aligned.append h1.2 h2⟩

theorem Aligned.self (ignoreIdx : Int) : ∀ (xs : List Int), Aligned ignoreIdx xs xs
  | [] => trivial
  | _ :: xs => ⟨Or.inr rfl, Aligned.self ignoreIdx xs⟩

theorem Aligned.ignored (ignoreIdx : Int) :
    ∀ (xs : List Int), Aligned ignoreIdx xs (List.replicate xs.length ignoreIdx)
  | [] => trivial
  | _ :: xs => ⟨Or.inl rfl, Aligned.ignored ignoreIdx xs⟩

theorem Aligned.concat {ignoreIdx : Int} (ps : List (List Int × List Int))
    (h : ∀ p ∈ ps, Aligned ignoreIdx p.1 p.2) :
    Aligned ignoreIdx (concatPairs ps).1 (concatPairs ps).2 := by
  induction ps with
  | nil => trivial
  | cons p ps ih =>
      exact Aligned.append (h p (List.mem_cons_self p ps))
        (ih (fun q hq => h q (List.mem_cons_of_mem p hq)))

theorem textSegmentPair_aligned (tok : Tokenizer) (ignoreIdx : Int) (a : Bool) (s : TextSegment) :
    Aligned ignoreIdx (textSegmentPair tok ignoreIdx a s).1 (textSegmentPair tok ignoreIdx a s).2 := by
  simp only [textSegmentPair]
  split
  · exact Aligned.self _ _
  · exact Aligned.ignored _ _

theorem reasonSegmentPair_aligned (tok : Tokenizer) (ignoreIdx : Int) (s : TextSegment) :
    Aligned ignoreIdx (reasonSegmentPair tok ignoreIdx s).1 (reasonSegmentPair tok ignoreIdx s).2 := by
  simp only [reasonSegmentPair]
  split
  · exact Aligned.self _ _
  · exact Aligned.ignored _ _

theorem process_content_part_aligned (e : TrainingExporter) (role : String) (c : ContentItem) :
    Aligned e.config.cross_entropy_ignore_index
      (e.process_content_part role c).1 (e.process_content_part role c).2 := by
  cases c with
  | text segments =>
      exact Aligned.concat _ (by
        intro p hp
        obtain ⟨s, _, rfl⟩ := List.mem_map.mp hp
        exact textSegmentPair_aligned _ _ _ _)
  | reason segments =>
      simp only [TrainingExporter.process_content_part]
      split
      · refine Aligned.append (Aligned.append (Aligned.self _ _) ?_) (Aligned.self _ _)
        exact Aligned.concat _ (by
          intro p hp
          obtain ⟨s, _, rfl⟩ := List.mem_map.mp hp
          exact reasonSegmentPair_aligned _ _ _)
      · trivial
  | tools definitions => exact Aligned.ignored _ _
  | tool_call calls => exact Aligned.self _ _
  | tool_response results => exact Aligned.ignored _ _

theorem process_item_aligned (e : TrainingExporter) (item : Item) :
    Aligned e.config.cross_entropy_ignore_index
      (e.process_item item).1 (e.process_item item).2 := by
  simp only [TrainingExporter.process_item]
  refine Aligned.append (Aligned.append (Aligned.ignored _ _) ?_) ?_
  · exact Aligned.concat _ (by
      intro p hp
      obtain ⟨c, _, rfl⟩ := List.mem_map.mp hp
      exact process_content_part_aligned _ _ _)
  · split
    · exact Aligned.self _ _
    · exact Aligned.ignored _ _

theorem process_conversation_aligned (e : TrainingExporter) (conv : ConversationData) :
    Aligned e.config.cross_entropy_ignore_index
      (e.process_conversation conv).1 (e.process_conversation conv).2 := by
  refine Aligned.append (Aligned.ignored _ _) ?_
  exact Aligned.concat _ (by
    intro p hp
    obtain ⟨it, _, rfl⟩ := List.mem_map.mp hp
    exact process_item_aligned _ _)

theorem Aligned.get {ignoreIdx : Int} :
    ∀ {xs ys : List Int}, Aligned ignoreIdx xs ys →
      ∀ (j : Nat) (hj : j < ys.length) (hj' : j < xs.length),
        ys.get ⟨j, hj⟩ = ignoreIdx ∨ ys.get ⟨j, hj⟩ = xs.get ⟨j, hj'⟩
  | [], [], _, j, hj, _ => absurd hj (by simp)
  | [], _ :: _, h, _, _, _ => absurd h (by simp [Aligned])
  | _ :: _, [], h, _, _, _ => absurd h (by simp [Aligned])
  | _ :: _, _ :: _, h, 0, _, _ => h.1
  | _ :: xs, _ :: ys, h, j + 1, hj, hj' =>
      Aligned.get h.2 j (Nat.lt_of_succ_lt_succ hj) (Nat.lt_of_succ_lt_succ hj')

/-- C10: in every record produced by the conversation encoder, each label is
either the configured ignore sentinel or exactly the input id at the same
position. -/
theorem C10_labels_sentinel_or_id (e : TrainingExporter) (conv : ConversationData)
    (j : Nat) (hj : j < (e.process_conversation conv).2.length)
    (hj' : j < (e.process_conversation conv).1.length) :
    (e.process_conversation conv).2.get ⟨j, hj⟩ = e.config.cross_entropy_ignore_index ∨
      (e.process_conversation conv).2.get ⟨j, hj⟩ = (e.process_conversation conv).1.get ⟨j, hj'⟩ :=
  Aligned.get (process_conversation_aligned e conv) j hj hj'

/-! ## Positional extraction of an emission from the encoded streams -/

theorem extract_at (x A m t : List Int) (n : Nat) (hx : x = A ++ (m ++ t))
    (hn : A.length = n) : (x.drop n).take m.length = m := by
  subst hx
  rw [List.drop_left' hn, List.take_left]

theorem concatPairs_items_len (e : TrainingExporter) (l : List Item) :
    (concatPairs (l.map e.process_item)).2.length = (concatPairs (l.map e.process_item)).1.length :=
  concatPairs_len _ (by
    intro p hp
    obtain ⟨it, _, rfl⟩ := List.mem_map.mp hp
    exact process_item_len _ _)

theorem concatPairs_parts_len (e : TrainingExporter) (role : String) (l : List ContentItem) :
    (concatPairs (l.map (e.process_content_part role))).2.length
      = (concatPairs (l.map (e.process_content_part role))).1.length :=
  concatPairs_len _ (by
    intro p hp
    obtain ⟨c, _, rfl⟩ := List.mem_map.mp hp
    exact process_content_part_len _ _ _)

theorem concatPairs_textsegs_len (tok : Tokenizer) (ignoreIdx : Int) (a : Bool)
    (l : List TextSegment) :
    (concatPairs (l.map (textSegmentPair tok ignoreIdx a))).2.length
      = (concatPairs (l.map (textSegmentPair tok ignoreIdx a))).1.length :=
  concatPairs_len _ (by
    intro p hp
    obtain ⟨s, _, rfl⟩ := List.mem_map.mp hp
    exact textSegmentPair_len _ _ _ _)

theorem concatPairs_reasonsegs_len (tok : Tokenizer) (ignoreIdx : Int)
    (l : List TextSegment) :
    (concatPairs (l.map (reasonSegmentPair tok ignoreIdx))).2.length
      = (concatPairs (l.map (reasonSegmentPair tok ignoreIdx))).1.length :=
  concatPairs_len _ (by
    intro p hp
    obtain ⟨s, _, rfl⟩ := List.mem_map.mp hp
    exact reasonSegmentPair_len _ _ _)

/-- C4: in every encoded conversation, each item's content is followed by the
end-of-turn token ids, whose labels copy the ids exactly when the item's role
equals the configured assistant name, and are the ignore sentinel otherwise.
The item is an arbitrary member of the conversation (`pre ++ item :: post`)
and the end-of-turn emission is located at the stream offset accumulated from
everything emitted before it. -/
theorem C4_eot_masking (e : TrainingExporter) (pre post : List Item)
    (role : String) (content : List ContentItem) :
    ((e.process_conversation (pre ++ Item.mk role content :: post)).1.drop
        ((e.tokenizer.encode e.config.special_tokens.bos).length
          + (concatPairs (pre.map e.process_item)).1.length
          + (e.tokenizer.encode (e.config.special_tokens.header_start ++ role
              ++ e.config.special_tokens.header_end ++ "\n")).length
          + (concatPairs (content.map (e.process_content_part role))).1.length)).take
        (e.tokenizer.encode e.config.special_tokens.eot).length
      = e.tokenizer.encode e.config.special_tokens.eot
    ∧ ((e.process_conversation (pre ++ Item.mk role content :: post)).2.drop
        ((e.tokenizer.encode e.config.special_tokens.bos).length
          + (concatPairs (pre.map e.process_item)).1.length
          + (e.tokenizer.encode (e.config.special_tokens.header_start ++ role
              ++ e.config.special_tokens.header_end ++ "\n")).length
          + (concatPairs (content.map (e.process_content_part role))).1.length)).take
        (e.tokenizer.encode e.config.special_tokens.eot).length
      = (if role == e.config.assistant_name
          then e.tokenizer.encode e.config.special_tokens.eot
          else List.replicate (e.tokenizer.encode e.config.special_tokens.eot).length
            e.config.cross_entropy_ignore_index) := by
  constructor
  · refine extract_at _
      ((e.tokenizer.encode e.config.special_tokens.bos)
        ++ (concatPairs (pre.map e.process_item)).1
        ++ (e.tokenizer.encode (e.config.special_tokens.header_start ++ role
              ++ e.config.special_tokens.header_end ++ "\n"))
        ++ (concatPairs (content.map (e.process_content_part role))).1)
      (e.tokenizer.encode e.config.special_tokens.eot)
      ((concatPairs (post.map e.process_item)).1) _ ?_ ?_
    · simp [TrainingExporter.process_conversation, TrainingExporter.process_item,
        List.map_append, concatPairs_append, concatPairs_cons, List.append_assoc]
    · simp only [List.length_append]
  · have hlen : (if role == e.config.assistant_name
          then e.tokenizer.encode e.config.special_tokens.eot
          else List.replicate (e.tokenizer.encode e.config.special_tokens.eot).length
            e.config.cross_entropy_ignore_index).length
        = (e.tokenizer.encode e.config.special_tokens.eot).length := by
      split <;> simp
    nth_rewrite 1 [← hlen]
    refine extract_at _
      (List.replicate (e.tokenizer.encode e.config.special_tokens.bos).length
          e.config.cross_entropy_ignore_index
        ++ (concatPairs (pre.map e.process_item)).2
        ++ List.replicate (e.tokenizer.encode (e.config.special_tokens.header_start ++ role
              ++ e.config.special_tokens.header_end ++ "\n")).length
            e.config.cross_entropy_ignore_index
        ++ (concatPairs (content.map (e.process_content_part role))).2)
      (if role == e.config.assistant_name
        then e.tokenizer.encode e.config.special_tokens.eot
        else List.replicate (e.tokenizer.encode e.config.special_tokens.eot).length
          e.config.cross_entropy_ignore_index)
      ((concatPairs (post.map e.process_item)).2) _ ?_ ?_
    · simp [TrainingExporter.process_conversation, TrainingExporter.process_item,
        List.map_append, concatPairs_append, concatPairs_cons, List.append_assoc]
    · simp only [List.length_append, List.length_replicate, concatPairs_items_len,
        concatPairs_parts_len]

/-- C2: for every Text content-block segment anywhere in an encoded
conversation, the emitted ids are the segment's token ids, and the emitted
labels copy those ids exactly when the segment's learnable flag is true and
the containing item's role equals the configured assistant name; otherwise
every label of the segment is the ignore sentinel.  The segment sits in an
arbitrary text block (`spre ++ s :: spost`) of an arbitrary item
(`cpre ++ block :: cpost` content, `pre ++ item :: post` conversation), and
is located at the accumulated stream offset of everything emitted before
it. -/
theorem C2_text_segment_masking (e : TrainingExporter) (pre post : List Item)
    (role : String) (cpre cpost : List ContentItem)
    (spre spost : List TextSegment) (s : TextSegment) :
    ((e.process_conversation
        (pre ++ Item.mk role (cpre ++ ContentItem.text (spre ++ s :: spost) :: cpost) :: post)).1.drop
        ((e.tokenizer.encode e.config.special_tokens.bos).length
          + (concatPairs (pre.map e.process_item)).1.length
          + (e.tokenizer.encode (e.config.special_tokens.header_start ++ role
              ++ e.config.special_tokens.header_end ++ "\n")).length
          + (concatPairs (cpre.map (e.process_content_part role))).1.length
          + (concatPairs (spre.map (textSegmentPair e.tokenizer
              e.config.cross_entropy_ignore_index (role == e.config.assistant_name)))).1.length)).take
        (e.tokenizer.encode s.text).length
      = e.tokenizer.encode s.text
    ∧ ((e.process_conversation
        (pre ++ Item.mk role (cpre ++ ContentItem.text (spre ++ s :: spost) :: cpost) :: post)).2.drop
        ((e.tokenizer.encode e.config.special_tokens.bos).length
          + (concatPairs (pre.map e.process_item)).1.length
          + (e.tokenizer.encode (e.config.special_tokens.header_start ++ role
              ++ e.config.special_tokens.header_end ++ "\n")).length
          + (concatPairs (cpre.map (e.process_content_part role))).1.length
          + (concatPairs (spre.map (textSegmentPair e.tokenizer
              e.config.cross_entropy_ignore_index (role == e.config.assistant_name)))).1.length)).take
        (e.tokenizer.encode s.text).length
      = (if s.learnable && (role == e.config.assistant_name)
          then e.tokenizer.encode s.text
          else List.replicate (e.tokenizer.encode s.text).length
            e.config.cross_entropy_ignore_index) := by
  constructor
  · refine extract_at _
      ((e.tokenizer.encode e.config.special_tokens.bos)
        ++ (concatPairs (pre.map e.process_item)).1
        ++ (e.tokenizer.encode (e.config.special_tokens.header_start ++ role
              ++ e.config.special_tokens.header_end ++ "\n"))
        ++ (concatPairs (cpre.map (e.process_content_part role))).1
        ++ (concatPairs (spre.map (textSegmentPair e.tokenizer
              e.config.cross_entropy_ignore_index (role == e.config.assistant_name)))).1)
      (e.tokenizer.encode s.text)
      ((concatPairs (spost.map (textSegmentPair e.tokenizer
            e.config.cross_entropy_ignore_index (role == e.config.assistant_name)))).1
        ++ (concatPairs (cpost.map (e.process_content_part role))).1
        ++ e.tokenizer.encode e.config.special_tokens.eot
        ++ (concatPairs (post.map e.process_item)).1) _ ?_ ?_
    · simp [TrainingExporter.process_conversation, TrainingExporter.process_item,
        TrainingExporter.process_content_part, textSegmentPair,
        List.map_append, concatPairs_append, concatPairs_cons, List.append_assoc]
    · simp only [List.length_append]
  · have hlen : (if s.learnable && (role == e.config.assistant_name)
          then e.tokenizer.encode s.text
          else List.replicate (e.tokenizer.encode s.text).length
            e.config.cross_entropy_ignore_index).length
        = (e.tokenizer.encode s.text).length := by
      split <;> simp
    nth_rewrite 1 [← hlen]
    refine extract_at _
      (List.replicate (e.tokenizer.encode e.config.special_tokens.bos).length
          e.config.cross_entropy_ignore_index
        ++ (concatPairs (pre.map e.process_item)).2
        ++ List.replicate (e.tokenizer.encode (e.config.special_tokens.header_start ++ role
              ++ e.config.special_tokens.header_end ++ "\n")).length
            e.config.cross_entropy_ignore_index
        ++ (concatPairs (cpre.map (e.process_content_part role))).2
        ++ (concatPairs (spre.map (textSegmentPair e.tokenizer
              e.config.cross_entropy_ignore_index (role == e.config.assistant_name)))).2)
      (if s.learnable && (role == e.config.assistant_name)
        then e.tokenizer.encode s.text
        else List.replicate (e.tokenizer.encode s.text).length
          e.config.cross_entropy_ignore_index)
      ((concatPairs (spost.map (textSegmentPair e.tokenizer
            e.config.cross_entropy_ignore_index (role == e.config.assistant_name)))).2
        ++ (concatPairs (cpost.map (e.process_content_part role))).2
        ++ (if role == e.config.assistant_name
            then e.tokenizer.encode e.config.special_tokens.eot
            else List.replicate (e.tokenizer.encode e.config.special_tokens.eot).length
              e.config.cross_entropy_ignore_index)
        ++ (concatPairs (post.map e.process_item)).2) _ ?_ ?_
    · simp [TrainingExporter.process_conversation, TrainingExporter.process_item,
        TrainingExporter.process_content_part, textSegmentPair,
        List.map_append, concatPairs_append, concatPairs_cons, List.append_assoc]
    · simp only [List.length_append, List.length_replicate, concatPairs_items_len,
        concatPairs_parts_len, concatPairs_textsegs_len]

/-- C3: for a Reasoning block anywhere in an encoded conversation: when
include_reasoning is true, the reasoning-start ids and the reasoning-end ids
are emitted with labels equal to those ids (learnable) regardless of the
item's role, and each interior segment's labels copy its ids exactly when the
segment's learnable flag is true — the role plays no part; when
include_reasoning is false, the block contributes nothing to either stream
(the encoding equals that of the same conversation with the block removed). -/
theorem C3_reasoning_block (e : TrainingExporter) (pre post : List Item)
    (role : String) (cpre cpost : List ContentItem) (segs : List TextSegment) :
    (e.config.include_reasoning = true →
      (((e.process_conversation
          (pre ++ Item.mk role (cpre ++ ContentItem.reason segs :: cpost) :: post)).1.drop
          ((e.tokenizer.encode e.config.special_tokens.bos).length
            + (concatPairs (pre.map e.process_item)).1.length
            + (e.tokenizer.encode (e.config.special_tokens.header_start ++ role
                ++ e.config.special_tokens.header_end ++ "\n")).length
            + (concatPairs (cpre.map (e.process_content_part role))).1.length)).take
          (e.tokenizer.encode e.config.special_tokens.think_start).length
        = e.tokenizer.encode e.config.special_tokens.think_start
      ∧ ((e.process_conversation
          (pre ++ Item.mk role (cpre ++ ContentItem.reason segs :: cpost) :: post)).2.drop
          ((e.tokenizer.encode e.config.special_tokens.bos).length
            + (concatPairs (pre.map e.process_item)).1.length
            + (e.tokenizer.encode (e.config.special_tokens.header_start ++ role
                ++ e.config.special_tokens.header_end ++ "\n")).length
            + (concatPairs (cpre.map (e.process_content_part role))).1.length)).take
          (e.tokenizer.encode e.config.special_tokens.think_start).length
        = e.tokenizer.encode e.config.special_tokens.think_start)
      ∧ (∀ spre spost : List TextSegment, ∀ s : TextSegment, segs = spre ++ s :: spost →
          ((e.process_conversation
            (pre ++ Item.mk role (cpre ++ ContentItem.reason segs :: cpost) :: post)).1.drop
            ((e.tokenizer.encode e.config.special_tokens.bos).length
              + (concatPairs (pre.map e.process_item)).1.length
              + (e.tokenizer.encode (e.config.special_tokens.header_start ++ role
                  ++ e.config.special_tokens.header_end ++ "\n")).length
              + (concatPairs (cpre.map (e.process_content_part role))).1.length
              + (e.tokenizer.encode e.config.special_tokens.think_start).length
              + (concatPairs (spre.map (reasonSegmentPair e.tokenizer
                  e.config.cross_entropy_ignore_index))).1.length)).take
            (e.tokenizer.encode s.text).length
          = e.tokenizer.encode s.text
        ∧ ((e.process_conversation
            (pre ++ Item.mk role (cpre ++ ContentItem.reason segs :: cpost) :: post)).2.drop
            ((e.tokenizer.encode e.config.special_tokens.bos).length
              + (concatPairs (pre.map e.process_item)).1.length
              + (e.tokenizer.encode (e.config.special_tokens.header_start ++ role
                  ++ e.config.special_tokens.header_end ++ "\n")).length
              + (concatPairs (cpre.map (e.process_content_part role))).1.length
              + (e.tokenizer.encode e.config.special_tokens.think_start).length
              + (concatPairs (spre.map (reasonSegmentPair e.tokenizer
                  e.config.cross_entropy_ignore_index))).1.length)).take
            (e.tokenizer.encode s.text).length
          = (if s.learnable then e.tokenizer.encode s.text
             else List.replicate (e.tokenizer.encode s.text).length
               e.config.cross_entropy_ignore_index))
      ∧ (((e.process_conversation
          (pre ++ Item.mk role (cpre ++ ContentItem.reason segs :: cpost) :: post)).1.drop
          ((e.tokenizer.encode e.config.special_tokens.bos).length
            + (concatPairs (pre.map e.process_item)).1.length
            + (e.tokenizer.encode (e.config.special_tokens.header_start ++ role
                ++ e.config.special_tokens.header_end ++ "\n")).length
            + (concatPairs (cpre.map (e.process_content_part role))).1.length
            + (e.tokenizer.encode e.config.special_tokens.think_start).length
            + (concatPairs (segs.map (reasonSegmentPair e.tokenizer
                e.config.cross_entropy_ignore_index))).1.length)).take
          (e.tokenizer.encode (e.config.special_tokens.think_end ++ "\n")).length
        = e.tokenizer.encode (e.config.special_tokens.think_end ++ "\n")
      ∧ ((e.process_conversation
          (pre ++ Item.mk role (cpre ++ ContentItem.reason segs :: cpost) :: post)).2.drop
          ((e.tokenizer.encode e.config.special_tokens.bos).length
            + (concatPairs (pre.map e.process_item)).1.length
            + (e.tokenizer.encode (e.config.special_tokens.header_start ++ role
                ++ e.config.special_tokens.header_end ++ "\n")).length
            + (concatPairs (cpre.map (e.process_content_part role))).1.length
            + (e.tokenizer.encode e.config.special_tokens.think_start).length
            + (concatPairs (segs.map (reasonSegmentPair e.tokenizer
                e.config.cross_entropy_ignore_index))).1.length)).take
          (e.tokenizer.encode (e.config.special_tokens.think_end ++ "\n")).length
        = e.tokenizer.encode (e.config.special_tokens.think_end ++ "\n")))
    ∧ (e.config.include_reasoning = false →
        e.process_conversation
          (pre ++ Item.mk role (cpre ++ ContentItem.reason segs :: cpost) :: post)
        = e.process_conversation (pre ++ Item.mk role (cpre ++ cpost) :: post)) := by
  constructor
  · intro hinc
    refine ⟨⟨?_, ?_⟩, ?_, ?_, ?_⟩
    · refine extract_at _
        ((e.tokenizer.encode e.config.special_tokens.bos)
          ++ (concatPairs (pre.map e.process_item)).1
          ++ (e.tokenizer.encode (e.config.special_tokens.header_start ++ role
                ++ e.config.special_tokens.header_end ++ "\n"))
          ++ (concatPairs (cpre.map (e.process_content_part role))).1)
        (e.tokenizer.encode e.config.special_tokens.think_start)
        ((concatPairs (segs.map (reasonSegmentPair e.tokenizer
              e.config.cross_entropy_ignore_index))).1
          ++ e.tokenizer.encode (e.config.special_tokens.think_end ++ "\n")
          ++ (concatPairs (cpost.map (e.process_content_part role))).1
          ++ e.tokenizer.encode e.config.special_tokens.eot
          ++ (concatPairs (post.map e.process_item)).1) _ ?_ ?_
      · simp [TrainingExporter.process_conversation, TrainingExporter.process_item,
          TrainingExporter.process_content_part, hinc,
          List.map_append, concatPairs_append, concatPairs_cons, List.append_assoc]
      · simp only [List.length_append]
    · refine extract_at _
        (List.replicate (e.tokenizer.encode e.config.special_tokens.bos).length
            e.config.cross_entropy_ignore_index
          ++ (concatPairs (pre.map e.process_item)).2
          ++ List.replicate (e.tokenizer.encode (e.config.special_tokens.header_start ++ role
                ++ e.config.special_tokens.header_end ++ "\n")).length
              e.config.cross_entropy_ignore_index
          ++ (concatPairs (cpre.map (e.process_content_part role))).2)
        (e.tokenizer.encode e.config.special_tokens.think_start)
        ((concatPairs (segs.map (reasonSegmentPair e.tokenizer
              e.config.cross_entropy_ignore_index))).2
          ++ e.tokenizer.encode (e.config.special_tokens.think_end ++ "\n")
          ++ (concatPairs (cpost.map (e.process_content_part role))).2
          ++ (if role == e.config.assistant_name
              then e.tokenizer.encode e.config.special_tokens.eot
              else List.replicate (e.tokenizer.encode e.config.special_tokens.eot).length
                e.config.cross_entropy_ignore_index)
          ++ (concatPairs (post.map e.process_item)).2) _ ?_ ?_
      · simp [TrainingExporter.process_conversation, TrainingExporter.process_item,
          TrainingExporter.process_content_part, hinc,
          List.map_append, concatPairs_append, concatPairs_cons, List.append_assoc]
      · simp only [List.length_append, List.length_replicate, concatPairs_items_len,
          concatPairs_parts_len]
    · intro spre spost s hsegs
      subst hsegs
      constructor
      · refine extract_at _
          ((e.tokenizer.encode e.config.special_tokens.bos)
            ++ (concatPairs (pre.map e.process_item)).1
            ++ (e.tokenizer.encode (e.config.special_tokens.header_start ++ role
                  ++ e.config.special_tokens.header_end ++ "\n"))
            ++ (concatPairs (cpre.map (e.process_content_part role))).1
            ++ (e.tokenizer.encode e.config.special_tokens.think_start)
            ++ (concatPairs (spre.map (reasonSegmentPair e.tokenizer
                  e.config.cross_entropy_ignore_index))).1)
          (e.tokenizer.encode s.text)
          ((concatPairs (spost.map (reasonSegmentPair e.tokenizer
                e.config.cross_entropy_ignore_index))).1
            ++ e.tokenizer.encode (e.config.special_tokens.think_end ++ "\n")
            ++ (concatPairs (cpost.map (e.process_content_part role))).1
            ++ e.tokenizer.encode e.config.special_tokens.eot
            ++ (concatPairs (post.map e.process_item)).1) _ ?_ ?_
        · simp [TrainingExporter.process_conversation, TrainingExporter.process_item,
            TrainingExporter.process_content_part, reasonSegmentPair, hinc,
            List.map_append, concatPairs_append, concatPairs_cons, List.append_assoc]
        · simp only [List.length_append]
      · have hlen : (if s.learnable then e.tokenizer.encode s.text
              else List.replicate (e.tokenizer.encode s.text).length
                e.config.cross_entropy_ignore_index).length
            = (e.tokenizer.encode s.text).length := by
          split <;> simp
        nth_rewrite 1 [← hlen]
        refine extract_at _
          (List.replicate (e.tokenizer.encode e.config.special_tokens.bos).length
              e.config.cross_entropy_ignore_index
            ++ (concatPairs (pre.map e.process_item)).2
            ++ List.replicate (e.tokenizer.encode (e.config.special_tokens.header_start ++ role
                  ++ e.config.special_tokens.header_end ++ "\n")).length
                e.config.cross_entropy_ignore_index
            ++ (concatPairs (cpre.map (e.process_content_part role))).2
            ++ (e.tokenizer.encode e.config.special_tokens.think_start)
            ++ (concatPairs (spre.map (reasonSegmentPair e.tokenizer
                  e.config.cross_entropy_ignore_index))).2)
          (if s.learnable then e.tokenizer.encode s.text
            else List.replicate (e.tokenizer.encode s.text).length
              e.config.cross_entropy_ignore_index)
          ((concatPairs (spost.map (reasonSegmentPair e.tokenizer
                e.config.cross_entropy_ignore_index))).2
            ++ e.tokenizer.encode (e.config.special_tokens.think_end ++ "\n")
            ++ (concatPairs (cpost.map (e.process_content_part role))).2
            ++ (if role == e.config.assistant_name
                then e.tokenizer.encode e.config.special_tokens.eot
                else List.replicate (e.tokenizer.encode e.config.special_tokens.eot).length
                  e.config.cross_entropy_ignore_index)
            ++ (concatPairs (post.map e.process_item)).2) _ ?_ ?_
        · simp [TrainingExporter.process_conversation, TrainingExporter.process_item,
            TrainingExporter.process_content_part, reasonSegmentPair, hinc,
            List.map_append, concatPairs_append, concatPairs_cons, List.append_assoc]
        · simp only [List.length_append, List.length_replicate, concatPairs_items_len,
            concatPairs_parts_len, concatPairs_reasonsegs_len]
    · refine extract_at _
        ((e.tokenizer.encode e.config.special_tokens.bos)
          ++ (concatPairs (pre.map e.process_item)).1
          ++ (e.tokenizer.encode (e.config.special_tokens.header_start ++ role
                ++ e.config.special_tokens.header_end ++ "\n"))
          ++ (concatPairs (cpre.map (e.process_content_part role))).1
          ++ (e.tokenizer.encode e.config.special_tokens.think_start)
          ++ (concatPairs (segs.map (reasonSegmentPair e.tokenizer
                e.config.cross_entropy_ignore_index))).1)
        (e.tokenizer.encode (e.config.special_tokens.think_end ++ "\n"))
        ((concatPairs (cpost.map (e.process_content_part role))).1
          ++ e.tokenizer.encode e.config.special_tokens.eot
          ++ (concatPairs (post.map e.process_item)).1) _ ?_ ?_
      · simp [TrainingExporter.process_conversation, TrainingExporter.process_item,
          TrainingExporter.process_content_part, hinc,
          List.map_append, concatPairs_append, concatPairs_cons, List.append_assoc]
      · simp only [List.length_append]
    · refine extract_at _
        (List.replicate (e.tokenizer.encode e.config.special_tokens.bos).length
            e.config.cross_entropy_ignore_index
          ++ (concatPairs (pre.map e.process_item)).2
          ++ List.replicate (e.tokenizer.encode (e.config.special_tokens.header_start ++ role
                ++ e.config.special_tokens.header_end ++ "\n")).length
              e.config.cross_entropy_ignore_index
          ++ (concatPairs (cpre.map (e.process_content_part role))).2
          ++ (e.tokenizer.encode e.config.special_tokens.think_start)
          ++ (concatPairs (segs.map (reasonSegmentPair e.tokenizer
                e.config.cross_entropy_ignore_index))).2)
        (e.tokenizer.encode (e.config.special_tokens.think_end ++ "\n"))
        ((concatPairs (cpost.map (e.process_content_part role))).2
          ++ (if role == e.config.assistant_name
              then e.tokenizer.encode e.config.special_tokens.eot
              else List.replicate (e.tokenizer.encode e.config.special_tokens.eot).length
                e.config.cross_entropy_ignore_index)
          ++ (concatPairs (post.map e.process_item)).2) _ ?_ ?_
      · simp [TrainingExporter.process_conversation, TrainingExporter.process_item,
          TrainingExporter.process_content_part, hinc,
          List.map_append, concatPairs_append, concatPairs_cons, List.append_assoc]
      · simp only [List.length_append, List.length_replicate, concatPairs_items_len,
          concatPairs_parts_len, concatPairs_reasonsegs_len]
  · intro hinc
    simp [TrainingExporter.process_conversation, TrainingExporter.process_item,
      TrainingExporter.process_content_part, hinc,
      List.map_append, concatPairs_append, concatPairs_cons, List.append_assoc]

/-! ## Ragged dataset writer (src/conv_editor/export/hdf5_writer.py) -/

/-- Errors raised by HDF5Writer.append: `IOError` when the file is not open,
`ValueError` on an ids/labels length mismatch (the shape error). The
dictionary-key check and the 1-D check of the Python code cannot fail in this
model, whose append receives the two one-dimensional rows directly. -/
inductive WriterError where
  | notOpen
  | shapeMismatch
deriving DecidableEq

/-- hdf5_writer.py HDF5Writer: the open flag stands for the h5py file handle
(`self.file` being non-None), and the two row lists are the contents of the
"input_ids" and "labels" variable-length datasets; `size` is the row count. -/
structure HDF5Writer where
  isOpen : Bool
  input_ids_rows : List (List Int)
  labels_rows : List (List Int)
deriving DecidableEq

/-- The writer as produced by `__enter__`: file created, both datasets
zero-length. -/
def HDF5Writer.openNew : HDF5Writer :=
  { isOpen := true, input_ids_rows := [], labels_rows := [] }

def HDF5Writer.size (w : HDF5Writer) : Nat := w.input_ids_rows.length

/-- hdf5_writer.py HDF5Writer.append (lines 43-67): raises when the file is
closed; raises a shape error when the lengths differ (before any mutation, so
the writer state is untouched); silently drops a zero-length row; otherwise
grows both datasets by exactly one row. -/
def HDF5Writer.append (w : HDF5Writer) (input_ids labels : List Int) :
    Except WriterError HDF5Writer :=
  if w.isOpen = false then Except.error WriterError.notOpen
  else if input_ids.length ≠ labels.length then Except.error WriterError.shapeMismatch
  else if input_ids.length = 0 then Except.ok w
  else Except.ok { w with
    input_ids_rows := w.input_ids_rows ++ [input_ids],
    labels_rows := w.labels_rows ++ [labels] }

/-- hdf5_writer.py HDF5Writer.close / __exit__. -/
def HDF5Writer.close (w : HDF5Writer) : HDF5Writer := { w with isOpen := false }

/-- C5: on an open writer, an append with mismatched lengths raises the shape
error without mutating the writer (so it stays open with its row count
unchanged), and a subsequent valid (equal-length, non-empty) append on the
same writer succeeds and grows the row count by exactly one. -/
theorem C5_shape_error_recoverable (w : HDF5Writer) (hopen : w.isOpen = true)
    (ids labels ids2 labels2 : List Int)
    (hmis : ids.length ≠ labels.length)
    (hok : ids2.length = labels2.length) (hnz : ids2 ≠ []) :
    w.append ids labels = Except.error WriterError.shapeMismatch
    ∧ ∃ w2, w.append ids2 labels2 = Except.ok w2
        ∧ w2.isOpen = true ∧ w2.size = w.size + 1 := by
  constructor
  · simp [HDF5Writer.append, hopen, hmis]
  · refine ⟨({ w with
                input_ids_rows := w.input_ids_rows ++ [ids2],
                labels_rows := w.labels_rows ++ [labels2] } : HDF5Writer), ?_, ?_, ?_⟩
    · have hlen0 : ¬ ids2.length = 0 := fun h => hnz (List.length_eq_zero.mp h)
      rw [HDF5Writer.append, if_neg (by simp [hopen]), if_neg (not_not_intro hok), if_neg hlen0]
    · exact hopen
    · simp [HDF5Writer.size]

/-- Witness for C5 at a concrete writer and concrete rows: append([1,2,3],[1,2])
fails with the shape error and append([1,2,3],[1,2,3]) then succeeds, taking
the row count from 0 to 1. -/
theorem C5_witness :
    HDF5Writer.openNew.append [1, 2, 3] [1, 2] = Except.error WriterError.shapeMismatch
    ∧ ∃ w2, HDF5Writer.openNew.append [1, 2, 3] [1, 2, 3] = Except.ok w2
        ∧ w2.isOpen = true ∧ w2.size = HDF5Writer.openNew.size + 1 :=
  C5_shape_error_recoverable HDF5Writer.openNew rfl [1, 2, 3] [1, 2] [1, 2, 3] [1, 2, 3]
    (by decide) (by decide) (by decide)

/-! ## Python string primitives used by the export worker

Kernel-computable models of `str.strip`, the `in` substring test and the
`{datetime}` substitution performed by `str.format`, written over the
character list of the string. -/

/-- Python `str.strip()`: removes leading and trailing whitespace. -/
def pyStrip (s : String) : String :=
  String.mk (((s.data.dropWhile Char.isWhitespace).reverse.dropWhile Char.isWhitespace).reverse)

/-- Python `pat in s` over character lists: some suffix starts with `pat`. -/
def containsSub : List Char → List Char → Bool
  | [], pat => pat.isPrefixOf ([] : List Char)
  | c :: cs, pat => pat.isPrefixOf (c :: cs) || containsSub cs pat

/-- Replaces every occurrence of `pat` (scanning left to right) by `rep`,
with enough fuel to consume the whole input. -/
def replaceFuel (pat rep : List Char) : Nat → List Char → List Char
  | 0, cs => cs
  | _ + 1, [] => []
  | n + 1, c :: cs =>
      if pat.isPrefixOf (c :: cs) && !pat.isEmpty
      then rep ++ replaceFuel pat rep n (List.drop pat.length (c :: cs))
      else c :: replaceFuel pat rep n cs

/-- Python `s.replace(pat, rep)` (and the effect of `str.format` on the one
placeholder the worker uses). -/
def pyReplace (s pat rep : String) : String :=
  String.mk (replaceFuel pat.data rep.data s.data.length s.data)

/-- The literal placeholder `\x7bdatetime\x7d` looked up in the system-prompt
template. -/
def datetimePlaceholder : String := "\x7bdatetime\x7d"

/-! ## Raw files and schema validation

export_worker.py parses each file with `json.load` and validates it with
`TypeAdapter(ConversationData).validate_python`.  A raw file is either
malformed JSON (or unreadable), or a list of raw items whose content blocks
carry an arbitrary `type` discriminator string.  Validation of the
discriminated union (models.py ContentItem, Field(discriminator="type"))
succeeds exactly for the five known tags; any other tag raises a
ValidationError.  The payload fields mirror the pydantic models; the
`handle_legacy_text_field` validator turns an empty segment list into one
empty always-learnable segment (the legacy whole-`text`-field migration for
old files is not modelled). -/

/-- One raw content block: the `type` discriminator plus the payload fields
a block of that kind would carry. -/
structure RawContentItem where
  type : String
  segments : List TextSegment := []
  definitions : List ToolDefinition := []
  calls : List ToolCall := []
  results : List ToolResult := []

/-- One raw conversation item. -/
structure RawItem where
  role : String
  content : List RawContentItem

/-- One enumerated corpus file, as seen after `json.load`. -/
inductive RawFile where
  | malformed
  | json (items : List RawItem)

/-- Validation of one raw content block against the discriminated union. -/
def validateContentItem (r : RawContentItem) : Option ContentItem :=
  if r.type = "text" then
    some (ContentItem.text
      (if r.segments.isEmpty then [{ text := "", learnable := true }] else r.segments))
  else if r.type = "reason" then
    some (ContentItem.reason
      (if r.segments.isEmpty then [{ text := "", learnable := true }] else r.segments))
  else if r.type = "tools" then some (ContentItem.tools r.definitions)
  else if r.type = "tool_call" then some (ContentItem.tool_call r.calls)
  else if r.type = "tool_response" then some (ContentItem.tool_response r.results)
  else none

/-- Validation of one raw item: every content block must validate. -/
def validateItem (r : RawItem) : Option Item :=
  (r.content.mapM validateContentItem).map (fun content => Item.mk r.role content)

/-- Validation of a whole file body: every item must validate. -/
def validateConversation (items : List RawItem) : Option ConversationData :=
  items.mapM validateItem

/-- export_worker.py run, lines 61-69: json.load plus schema validation;
`none` is the caught (json.JSONDecodeError, ValidationError, IOError) case
that makes the worker skip the file. -/
def parseFile : RawFile → Option ConversationData
  | RawFile.malformed => none
  | RawFile.json items => validateConversation items

/-! ## Export worker (src/conv_editor/workers/export_worker.py) -/

/-- export_worker.py run, line 71: `not conversation_data or
conversation_data[0].role != "system"`. -/
def needsSystemPrompt : ConversationData → Bool
  | [] => true
  | it :: _ => it.role != "system"

/-- export_worker.py _add_system_prompt (lines 92-113): `sysprompt` is the
content of `sysprompt.txt` if that file exists, `now` is
`datetime.now().strftime("%d %B %Y %I:%M %p")` at the moment of the call.
The template is stripped; the `\x7bdatetime\x7d` placeholder, when present, is
substituted; a system item holding one non-learnable text segment is
prepended.  (The except-branch for a template whose other braces make
`str.format` raise is not modelled: the claims under study use either no
template or a well-formed one.) -/
def addSystemPrompt (sysprompt : Option String) (now : String)
    (conv : ConversationData) : ConversationData :=
  match sysprompt with
  | none => conv
  | some raw =>
      let template := pyStrip raw
      let formatted :=
        if containsSub template.data datetimePlaceholder.data
        then pyReplace template datetimePlaceholder now
        else template
      Item.mk "system" [ContentItem.text [{ text := formatted, learnable := false }]] :: conv

/-- Observable events of one run: the `progress.emit(current, total)` signals,
and per-file completion markers (in emission order): `skipped i` when file i
was dropped by the parse/validation guard, `processed i` when its handling
(encode and, for a non-empty record, append) finished. -/
inductive RunEvent where
  | progress (current total : Nat)
  | skipped (index : Nat)
  | processed (index : Nat)
deriving DecidableEq

/-- Terminal outcome of a run: `completed` (export_completed emitted),
`noFiles` (the early "No .json files found" error), `critical` (the unhandled
exception path: error.emit from the outer except). -/
inductive Outcome where
  | completed
  | noFiles
  | critical (e : WriterError)
deriving DecidableEq

/-- Result of the per-file loop: events in emission order, the writer state,
and the exception that escaped the loop, if any. -/
structure LoopResult where
  events : List RunEvent
  writer : HDF5Writer
  err : Option WriterError
deriving DecidableEq

/-- The per-file loop of export_worker.py run (lines 54-77), parameterized
over the encoding function (the loop body calls
`exporter.process_conversation`; the parameter makes the loop's control flow
provable for any encoder, including a defective one raising the shape error).
Cancellation (`self._is_running`) is not modelled: the claims under study
concern uncancelled runs.  An exception escaping `writer.append` aborts the
loop (there is no per-file handler around the append). -/
def ExportWorker.loop (encodeFn : ConversationData → List Int × List Int)
    (sysprompt : Option String) (now : String) (total : Nat) :
    List RawFile → Nat → HDF5Writer → LoopResult
  | [], _, w => ⟨[], w, none⟩
  | f :: rest, i, w =>
      match parseFile f with
      | none =>
          let r := ExportWorker.loop encodeFn sysprompt now total rest (i + 1) w
          ⟨RunEvent.progress (i + 1) total :: RunEvent.skipped i :: r.events, r.writer, r.err⟩
      | some conv =>
          let conv2 := if needsSystemPrompt conv then addSystemPrompt sysprompt now conv else conv
          let enc := encodeFn conv2
          if enc.1.length > 0 then
            match w.append enc.1 enc.2 with
            | Except.ok w2 =>
                let r := ExportWorker.loop encodeFn sysprompt now total rest (i + 1) w2
                ⟨RunEvent.progress (i + 1) total :: RunEvent.processed i :: r.events, r.writer, r.err⟩
            | Except.error err => ⟨[RunEvent.progress (i + 1) total], w, some err⟩
          else
            let r := ExportWorker.loop encodeFn sysprompt now total rest (i + 1) w
            ⟨RunEvent.progress (i + 1) total :: RunEvent.processed i :: r.events, r.writer, r.err⟩

/-- Result of a whole run: the event trace, the two ragged datasets left in
the output file, and the terminal outcome. -/
structure RunResult where
  events : List RunEvent
  input_ids_rows : List (List Int)
  labels_rows : List (List Int)
  outcome : Outcome
deriving DecidableEq

/-- export_worker.py run (lines 29-90), parameterized over the encoding
function.  `files` is the enumeration `sorted(root.rglob("*.json"))` in its
deterministic sorted order; `sysprompt` the optional sysprompt.txt content;
`now` the formatted current datetime.  Zero files is the early error return
(no output file is created); otherwise the writer is opened, the loop runs,
the with-block closes the writer on every path, and the outcome is completed
or, when an exception escaped the loop, the critical error report. -/
def ExportWorker.runWith (encodeFn : ConversationData → List Int × List Int)
    (sysprompt : Option String) (now : String) (files : List RawFile) : RunResult :=
  let total := files.length
  if total = 0 then ⟨[], [], [], Outcome.noFiles⟩
  else
    let r := ExportWorker.loop encodeFn sysprompt now total files 0 HDF5Writer.openNew
    ⟨RunEvent.progress 0 total :: r.events,
     r.writer.input_ids_rows, r.writer.labels_rows,
     match r.err with
     | none => Outcome.completed
     | some err => Outcome.critical err⟩

/-- The actual export worker run: the loop body encodes with
TrainingExporter.process_conversation. -/
def ExportWorker.run (e : TrainingExporter) (sysprompt : Option String)
    (now : String) (files : List RawFile) : RunResult :=
  ExportWorker.runWith (fun conv => e.process_conversation conv) sysprompt now files

/-! ## Step equations for the worker loop -/

theorem loop_skip_eq (encodeFn : ConversationData → List Int × List Int)
    (sysprompt : Option String) (now : String) (total : Nat)
    (f : RawFile) (rest : List RawFile) (i : Nat) (w : HDF5Writer)
    (hpf : parseFile f = none) :
    ExportWorker.loop encodeFn sysprompt now total (f :: rest) i w
      = ⟨RunEvent.progress (i + 1) total :: RunEvent.skipped i ::
          (ExportWorker.loop encodeFn sysprompt now total rest (i + 1) w).events,
         (ExportWorker.loop encodeFn sysprompt now total rest (i + 1) w).writer,
         (ExportWorker.loop encodeFn sysprompt now total rest (i + 1) w).err⟩ := by
  simp [ExportWorker.loop, hpf]

theorem loop_ok_eq (encodeFn : ConversationData → List Int × List Int)
    (sysprompt : Option String) (now : String) (total : Nat)
    (f : RawFile) (rest : List RawFile) (i : Nat) (w w2 : HDF5Writer)
    (conv : ConversationData)
    (hpf : parseFile f = some conv)
    (hnz : (encodeFn (if needsSystemPrompt conv
        then addSystemPrompt sysprompt now conv else conv)).1.length > 0)
    (happ : w.append
        (encodeFn (if needsSystemPrompt conv
          then addSystemPrompt sysprompt now conv else conv)).1
        (encodeFn (if needsSystemPrompt conv
          then addSystemPrompt sysprompt now conv else conv)).2 = Except.ok w2) :
    ExportWorker.loop encodeFn sysprompt now total (f :: rest) i w
      = ⟨RunEvent.progress (i + 1) total :: RunEvent.processed i ::
          (ExportWorker.loop encodeFn sysprompt now total rest (i + 1) w2).events,
         (ExportWorker.loop encodeFn sysprompt now total rest (i + 1) w2).writer,
         (ExportWorker.loop encodeFn sysprompt now total rest (i + 1) w2).err⟩ := by
  simp [ExportWorker.loop, hpf, hnz, happ]

theorem loop_empty_eq (encodeFn : ConversationData → List Int × List Int)
    (sysprompt : Option String) (now : String) (total : Nat)
    (f : RawFile) (rest : List RawFile) (i : Nat) (w : HDF5Writer)
    (conv : ConversationData)
    (hpf : parseFile f = some conv)
    (hz : ¬ (encodeFn (if needsSystemPrompt conv
        then addSystemPrompt sysprompt now conv else conv)).1.length > 0) :
    ExportWorker.loop encodeFn sysprompt now total (f :: rest) i w
      = ⟨RunEvent.progress (i + 1) total :: RunEvent.processed i ::
          (ExportWorker.loop encodeFn sysprompt now total rest (i + 1) w).events,
         (ExportWorker.loop encodeFn sysprompt now total rest (i + 1) w).writer,
         (ExportWorker.loop encodeFn sysprompt now total rest (i + 1) w).err⟩ := by
  simp [ExportWorker.loop, hpf, hz]

theorem loop_err_eq (encodeFn : ConversationData → List Int × List Int)
    (sysprompt : Option String) (now : String) (total : Nat)
    (f : RawFile) (rest : List RawFile) (i : Nat) (w : HDF5Writer)
    (conv : ConversationData) (err : WriterError)
    (hpf : parseFile f = some conv)
    (hnz : (encodeFn (if needsSystemPrompt conv
        then addSystemPrompt sysprompt now conv else conv)).1.length > 0)
    (happ : w.append
        (encodeFn (if needsSystemPrompt conv
          then addSystemPrompt sysprompt now conv else conv)).1
        (encodeFn (if needsSystemPrompt conv
          then addSystemPrompt sysprompt now conv else conv)).2 = Except.error err) :
    ExportWorker.loop encodeFn sysprompt now total (f :: rest) i w
      = ⟨[RunEvent.progress (i + 1) total], w, some err⟩ := by
  simp [ExportWorker.loop, hpf, hnz, happ]

/-! ## Unknown content kinds -/

theorem mapM_option_isNone {α β : Type} (f : α → Option β) :
    ∀ (l : List α) (x : α), x ∈ l → f x = none → l.mapM f = none := by
  intro l
  induction l with
  | nil => intro x hx _; exact absurd hx (List.not_mem_nil x)
  | cons a t ih =>
      intro x hx hfx
      rcases List.mem_cons.mp hx with rfl | hxt
      · rw [List.mapM_cons]
        simp [hfx]
      · cases hfa : f a with
        | none =>
            rw [List.mapM_cons]
            simp [hfa]
        | some b =>
            rw [List.mapM_cons]
            simp only [hfa, ih x hxt hfx]
            rfl

/-- C7: a conversation file containing a content block whose `type` tag is
outside the closed variant set fails schema validation (a hard error for that
conversation), so the worker skips that file — rather than silently ignoring
the block — and continues the run with the remaining files. -/
theorem C7_unknown_kind_rejected (encodeFn : ConversationData → List Int × List Int)
    (sysprompt : Option String) (now : String) (total : Nat)
    (items : List RawItem) (rest : List RawFile) (i : Nat) (w : HDF5Writer)
    (it : RawItem) (r : RawContentItem)
    (hit : it ∈ items) (hr : r ∈ it.content)
    (htype : r.type ∉ (["text", "reason", "tools", "tool_call", "tool_response"] : List String)) :
    parseFile (RawFile.json items) = none
    ∧ ExportWorker.loop encodeFn sysprompt now total (RawFile.json items :: rest) i w
        = ⟨RunEvent.progress (i + 1) total :: RunEvent.skipped i ::
            (ExportWorker.loop encodeFn sysprompt now total rest (i + 1) w).events,
           (ExportWorker.loop encodeFn sysprompt now total rest (i + 1) w).writer,
           (ExportWorker.loop encodeFn sysprompt now total rest (i + 1) w).err⟩ := by
  have h1 : ¬ r.type = "text" := fun he => htype (by simp [he])
  have h2 : ¬ r.type = "reason" := fun he => htype (by simp [he])
  have h3 : ¬ r.type = "tools" := fun he => htype (by simp [he])
  have h4 : ¬ r.type = "tool_call" := fun he => htype (by simp [he])
  have h5 : ¬ r.type = "tool_response" := fun he => htype (by simp [he])
  have hvc : validateContentItem r = none := by
    simp [validateContentItem, h1, h2, h3, h4, h5]
  have hvi : validateItem it = none := by
    unfold validateItem
    rw [mapM_option_isNone validateContentItem it.content r hr hvc]
    rfl
  have hpf : parseFile (RawFile.json items) = none :=
    mapM_option_isNone validateItem items it hit hvi
  exact ⟨hpf, loop_skip_eq encodeFn sysprompt now total _ rest i w hpf⟩

/-- Witness for C7: a file whose single item carries a block of the unknown
kind "image" is rejected by validation and skipped by the loop while the run
(here with no further files) continues. -/
theorem C7_witness :
    parseFile (RawFile.json [RawItem.mk "user" [{ type := "image" }]]) = none
    ∧ ExportWorker.loop (fun _ => ([], [])) none "" 1
        (RawFile.json [RawItem.mk "user" [{ type := "image" }]] :: []) 0 HDF5Writer.openNew
        = ⟨RunEvent.progress 1 1 :: RunEvent.skipped 0 ::
            (ExportWorker.loop (fun _ => ([], [])) none "" 1 [] 1 HDF5Writer.openNew).events,
           (ExportWorker.loop (fun _ => ([], [])) none "" 1 [] 1 HDF5Writer.openNew).writer,
           (ExportWorker.loop (fun _ => ([], [])) none "" 1 [] 1 HDF5Writer.openNew).err⟩ :=
  C7_unknown_kind_rejected (fun _ => ([], [])) none "" 1
    [RawItem.mk "user" [{ type := "image" }]] [] 0 HDF5Writer.openNew
    (RawItem.mk "user" [{ type := "image" }]) { type := "image" }
    (by simp) (by simp) (by decide)

/-! ## Concrete instances used to exercise the model -/

/-- A concrete tokenizer mapping each character to its code point. -/
def charTokenizer : Tokenizer := ⟨fun s => s.data.map (fun c => (c.toNat : Int))⟩

/-- A concrete json library whose dumps are empty strings. -/
def trivialJsonLib : JsonLib := ⟨fun _ => "", fun _ => "", fun _ => ""⟩

/-- An exporter with the default configuration. -/
def defaultExporter : TrainingExporter := ⟨charTokenizer, trivialJsonLib, {}⟩

/-- An exporter with reasoning excluded. -/
def noReasonExporter : TrainingExporter :=
  ⟨charTokenizer, trivialJsonLib, { include_reasoning := false }⟩

/-- A defective encoder producing a length-mismatched record, the situation
the spec describes as "indicates an encoder defect". -/
def badEncoder : ConversationData → List Int × List Int := fun _ => ([1, 2, 3], [1, 2])

/-! ## C6: what a shape error during append does to the run -/

/-- Counterexample to C6 as stated: with an encoder defect producing a
mismatched record for the first of two files, the run does NOT continue to
the remaining file — no event is ever emitted for file index 1 — and the
run terminates with the critical-error outcome instead of completing.  (The
worker has no per-file handler around `writer.append`; the ValueError
propagates to the outer `except` which ends the run.) -/
theorem C6_counterexample :
    (ExportWorker.runWith badEncoder none ""
        [RawFile.json [RawItem.mk "user" []], RawFile.json [RawItem.mk "assistant" []]]).outcome
      = Outcome.critical WriterError.shapeMismatch
    ∧ (ExportWorker.runWith badEncoder none ""
        [RawFile.json [RawItem.mk "user" []], RawFile.json [RawItem.mk "assistant" []]]).outcome
      ≠ Outcome.completed
    ∧ RunEvent.processed 1 ∉ (ExportWorker.runWith badEncoder none ""
        [RawFile.json [RawItem.mk "user" []], RawFile.json [RawItem.mk "assistant" []]]).events
    ∧ RunEvent.skipped 1 ∉ (ExportWorker.runWith badEncoder none ""
        [RawFile.json [RawItem.mk "user" []], RawFile.json [RawItem.mk "assistant" []]]).events := by
  decide

/-- C6 amended: when append raises the shape error on some file, the current
file's write is aborted (the writer keeps exactly the rows it had) but the
run does NOT continue: the loop stops at that file — no events are emitted
for the remaining files — and the error escapes, so the run ends with the
critical-failure outcome. -/
theorem C6_shape_error_aborts_run (encodeFn : ConversationData → List Int × List Int)
    (sysprompt : Option String) (now : String) (total : Nat)
    (f : RawFile) (rest : List RawFile) (i : Nat) (w : HDF5Writer)
    (conv : ConversationData)
    (hpf : parseFile f = some conv)
    (hopen : w.isOpen = true)
    (hnz : (encodeFn (if needsSystemPrompt conv
        then addSystemPrompt sysprompt now conv else conv)).1.length > 0)
    (hmis : (encodeFn (if needsSystemPrompt conv
          then addSystemPrompt sysprompt now conv else conv)).1.length
        ≠ (encodeFn (if needsSystemPrompt conv
          then addSystemPrompt sysprompt now conv else conv)).2.length) :
    ExportWorker.loop encodeFn sysprompt now total (f :: rest) i w
      = ⟨[RunEvent.progress (i + 1) total], w, some WriterError.shapeMismatch⟩ := by
  have happ : w.append
      (encodeFn (if needsSystemPrompt conv
        then addSystemPrompt sysprompt now conv else conv)).1
      (encodeFn (if needsSystemPrompt conv
        then addSystemPrompt sysprompt now conv else conv)).2
      = Except.error WriterError.shapeMismatch := by
    rw [HDF5Writer.append, if_neg (by simp [hopen]), if_pos hmis]
  exact loop_err_eq encodeFn sysprompt now total f rest i w conv WriterError.shapeMismatch
    hpf hnz happ

/-- Witness for the amended C6 at a concrete defective encoder and corpus. -/
theorem C6_witness :
    ExportWorker.loop badEncoder none "" 2
        [RawFile.json [RawItem.mk "user" []], RawFile.json [RawItem.mk "assistant" []]]
        0 HDF5Writer.openNew
      = ⟨[RunEvent.progress 1 2], HDF5Writer.openNew, some WriterError.shapeMismatch⟩ :=
  C6_shape_error_aborts_run badEncoder none "" 2
    (RawFile.json [RawItem.mk "user" []]) [RawFile.json [RawItem.mk "assistant" []]]
    0 HDF5Writer.openNew [Item.mk "user" []] rfl rfl (by decide) (by decide)

/-! ## C8: progress events -/

theorem loop_progress_total (encodeFn : ConversationData → List Int × List Int)
    (sysprompt : Option String) (now : String) (total : Nat) :
    ∀ (files : List RawFile) (i : Nat) (w : HDF5Writer) (c t : Nat),
      RunEvent.progress c t ∈ (ExportWorker.loop encodeFn sysprompt now total files i w).events →
      t = total := by
  intro files
  induction files with
  | nil => intro i w c t h; simp [ExportWorker.loop] at h
  | cons f rest ih =>
      intro i w c t h
      rcases hpf : parseFile f with _ | conv
      · rw [loop_skip_eq encodeFn sysprompt now total f rest i w hpf] at h
        simp only [List.mem_cons] at h
        rcases h with h | h | h
        · exact (RunEvent.progress.injEq _ _ _ _).mp h |>.2
        · exact absurd h (by simp)
        · exact ih (i + 1) w c t h
      · by_cases hnz : (encodeFn (if needsSystemPrompt conv
            then addSystemPrompt sysprompt now conv else conv)).1.length > 0
        · cases happ : w.append
              (encodeFn (if needsSystemPrompt conv
                then addSystemPrompt sysprompt now conv else conv)).1
              (encodeFn (if needsSystemPrompt conv
                then addSystemPrompt sysprompt now conv else conv)).2 with
          | error err =>
              rw [loop_err_eq encodeFn sysprompt now total f rest i w conv err hpf hnz happ] at h
              simp only [List.mem_cons, List.not_mem_nil, or_false] at h
              exact (RunEvent.progress.injEq _ _ _ _).mp h |>.2
          | ok w2 =>
              rw [loop_ok_eq encodeFn sysprompt now total f rest i w w2 conv hpf hnz happ] at h
              simp only [List.mem_cons] at h
              rcases h with h | h | h
              · exact (RunEvent.progress.injEq _ _ _ _).mp h |>.2
              · exact absurd h (by simp)
              · exact ih (i + 1) w2 c t h
        · rw [loop_empty_eq encodeFn sysprompt now total f rest i w conv hpf hnz] at h
          simp only [List.mem_cons] at h
          rcases h with h | h | h
          · exact (RunEvent.progress.injEq _ _ _ _).mp h |>.2
          · exact absurd h (by simp)
          · exact ih (i + 1) w c t h

theorem loop_file_events (encodeFn : ConversationData → List Int × List Int)
    (sysprompt : Option String) (now : String) (total : Nat) :
    ∀ (files : List RawFile) (i : Nat) (w : HDF5Writer),
      (ExportWorker.loop encodeFn sysprompt now total files i w).err = none →
      ∀ j, j < files.length →
        ∃ p q : Nat, p < q
          ∧ (ExportWorker.loop encodeFn sysprompt now total files i w).events.get? p
              = some (RunEvent.progress (i + j + 1) total)
          ∧ ((ExportWorker.loop encodeFn sysprompt now total files i w).events.get? q
                = some (RunEvent.processed (i + j))
             ∨ (ExportWorker.loop encodeFn sysprompt now total files i w).events.get? q
                = some (RunEvent.skipped (i + j))) := by
  intro files
  induction files with
  | nil => intro i w _ j hj; exact absurd hj (by simp)
  | cons f rest ih =>
      intro i w herr j hj
      rcases hpf : parseFile f with _ | conv
      · rw [loop_skip_eq encodeFn sysprompt now total f rest i w hpf] at herr ⊢
        cases j with
        | zero => exact ⟨0, 1, by omega, by simp, Or.inr (by simp)⟩
        | succ jj =>
            obtain ⟨p, q, hpq, hp, hq⟩ := ih (i + 1) w herr jj (by simpa using hj)
            have hidx : i + 1 + jj = i + (jj + 1) := by omega
            rw [hidx] at hp hq
            exact ⟨p + 2, q + 2, by omega, by simpa using hp, by simpa using hq⟩
      · by_cases hnz : (encodeFn (if needsSystemPrompt conv
            then addSystemPrompt sysprompt now conv else conv)).1.length > 0
        · cases happ : w.append
              (encodeFn (if needsSystemPrompt conv
                then addSystemPrompt sysprompt now conv else conv)).1
              (encodeFn (if needsSystemPrompt conv
                then addSystemPrompt sysprompt now conv else conv)).2 with
          | error err =>
              rw [loop_err_eq encodeFn sysprompt now total f rest i w conv err hpf hnz happ] at herr
              exact absurd herr (by simp)
          | ok w2 =>
              rw [loop_ok_eq encodeFn sysprompt now total f rest i w w2 conv hpf hnz happ] at herr ⊢
              cases j with
              | zero => exact ⟨0, 1, by omega, by simp, Or.inl (by simp)⟩
              | succ jj =>
                  obtain ⟨p, q, hpq, hp, hq⟩ := ih (i + 1) w2 herr jj (by simpa using hj)
                  have hidx : i + 1 + jj = i + (jj + 1) := by omega
                  rw [hidx] at hp hq
                  exact ⟨p + 2, q + 2, by omega, by simpa using hp, by simpa using hq⟩
        · rw [loop_empty_eq encodeFn sysprompt now total f rest i w conv hpf hnz] at herr ⊢
          cases j with
          | zero => exact ⟨0, 1, by omega, by simp, Or.inl (by simp)⟩
          | succ jj =>
              obtain ⟨p, q, hpq, hp, hq⟩ := ih (i + 1) w herr jj (by simpa using hj)
              have hidx : i + 1 + jj = i + (jj + 1) := by omega
              rw [hidx] at hp hq
              exact ⟨p + 2, q + 2, by omega, by simpa using hp, by simpa using hq⟩

/-- Counterexample to C8 as stated: in the run over one (valid) file, the
only progress event carrying (1, 1) is emitted BEFORE the file is processed,
not after: the event trace is [progress 0 1, progress 1 1, processed 0], so
there is no pair of positions placing processed 0 before progress 1 1. -/
theorem C8_counterexample :
    ¬ (∀ j, j < 1 →
        ∃ p q : Nat, p < q
          ∧ (ExportWorker.run defaultExporter none "" [RawFile.json []]).events.get? p
              = some (RunEvent.processed j)
          ∧ (ExportWorker.run defaultExporter none "" [RawFile.json []]).events.get? q
              = some (RunEvent.progress (j + 1) 1)) := by
  have hev : (ExportWorker.run defaultExporter none "" [RawFile.json []]).events
      = [RunEvent.progress 0 1, RunEvent.progress 1 1, RunEvent.processed 0] := by decide
  intro h
  obtain ⟨p, q, hpq, hp, hq⟩ := h 0 (by omega)
  rw [hev] at hp hq
  rcases q with _ | _ | m
  · simp at hq
  · rcases p with _ | _ | m
    · simp at hp
    · simp at hp
    · omega
  · rcases m with _ | m2
    · simp at hq
    · simp at hq

/-- C8 amended: progress events report (current_file_index, total_file_count)
with the total fixed up front (every progress event carries the enumerated
file count), but each file's (i+1, total) event is emitted immediately BEFORE
that file is handled, not after: in the trace of a completed run the progress
event for file i precedes the marker of that file's processing (or skipping).
An additional (0, total) event precedes the loop. -/
theorem C8_progress_reporting (e : TrainingExporter) (sysprompt : Option String)
    (now : String) (files : List RawFile)
    (hdone : (ExportWorker.run e sysprompt now files).outcome = Outcome.completed) :
    (∀ c t, RunEvent.progress c t ∈ (ExportWorker.run e sysprompt now files).events →
      t = files.length)
    ∧ ∀ j, j < files.length →
        ∃ p q : Nat, p < q
          ∧ (ExportWorker.run e sysprompt now files).events.get? p
              = some (RunEvent.progress (j + 1) files.length)
          ∧ ((ExportWorker.run e sysprompt now files).events.get? q
                = some (RunEvent.processed j)
             ∨ (ExportWorker.run e sysprompt now files).events.get? q
                = some (RunEvent.skipped j)) := by
  simp only [ExportWorker.run] at hdone ⊢
  by_cases hfe : files.length = 0
  · rw [ExportWorker.runWith] at hdone
    simp [hfe] at hdone
  · rw [ExportWorker.runWith] at hdone ⊢
    simp only [hfe, if_false] at hdone ⊢
    have herr : (ExportWorker.loop (fun conv => e.process_conversation conv)
        sysprompt now files.length files 0 HDF5Writer.openNew).err = none := by
      cases he : (ExportWorker.loop (fun conv => e.process_conversation conv)
          sysprompt now files.length files 0 HDF5Writer.openNew).err with
      | none => rfl
      | some err =>
          rw [he] at hdone
          exact absurd hdone (by simp)
    constructor
    · intro c t hmem
      rcases List.mem_cons.mp hmem with h | h
      · exact ((RunEvent.progress.injEq _ _ _ _).mp h).2
      · exact loop_progress_total _ sysprompt now files.length files 0 HDF5Writer.openNew c t h
    · intro j hj
      obtain ⟨p, q, hpq, hp, hq⟩ := loop_file_events _ sysprompt now files.length files 0
        HDF5Writer.openNew herr j hj
      have hz : 0 + j = j := by omega
      rw [hz] at hp hq
      refine ⟨p + 1, q + 1, by omega, by simpa using hp, ?_⟩
      rcases hq with hq | hq
      · exact Or.inl (by simpa using hq)
      · exact Or.inr (by simpa using hq)

/-- Witness for the amended C8: the one-file run of the counterexample
completes, every progress event carries total 1, and the progress event for
the file precedes its processing marker. -/
theorem C8_witness :
    (∀ c t, RunEvent.progress c t ∈ (ExportWorker.run defaultExporter none ""
        [RawFile.json []]).events → t = 1)
    ∧ ∀ j, j < 1 →
        ∃ p q : Nat, p < q
          ∧ (ExportWorker.run defaultExporter none "" [RawFile.json []]).events.get? p
              = some (RunEvent.progress (j + 1) 1)
          ∧ ((ExportWorker.run defaultExporter none "" [RawFile.json []]).events.get? q
                = some (RunEvent.processed j)
             ∨ (ExportWorker.run defaultExporter none "" [RawFile.json []]).events.get? q
                = some (RunEvent.skipped j)) :=
  C8_progress_reporting defaultExporter none "" [RawFile.json []] (by decide)

/-! ## C9: two-run determinism -/

/-- Counterexample to C9 as stated: with a sysprompt template containing the
datetime placeholder and a conversation that triggers system-prompt
injection, two runs over the identical corpus and identical configuration but
at different times produce different "input_ids" datasets, because
_add_system_prompt substitutes the current time into the injected text. -/
theorem C9_counterexample :
    (ExportWorker.run defaultExporter (some "Time: \x7bdatetime\x7d")
        "01 January 2025 01:00 AM" [RawFile.json []]).input_ids_rows
      ≠ (ExportWorker.run defaultExporter (some "Time: \x7bdatetime\x7d")
        "02 January 2025 01:00 AM" [RawFile.json []]).input_ids_rows := by
  decide

theorem addSystemPrompt_now_indep (sysprompt : Option String)
    (h : sysprompt = none ∨ ∃ t, sysprompt = some t
        ∧ containsSub (pyStrip t).data datetimePlaceholder.data = false)
    (now1 now2 : String) (conv : ConversationData) :
    addSystemPrompt sysprompt now1 conv = addSystemPrompt sysprompt now2 conv := by
  rcases h with rfl | ⟨t, rfl, hc⟩
  · rfl
  · simp [addSystemPrompt, hc]

theorem loop_now_indep (encodeFn : ConversationData → List Int × List Int)
    (sysprompt : Option String)
    (h : sysprompt = none ∨ ∃ t, sysprompt = some t
        ∧ containsSub (pyStrip t).data datetimePlaceholder.data = false)
    (now1 now2 : String) (total : Nat) :
    ∀ (files : List RawFile) (i : Nat) (w : HDF5Writer),
      ExportWorker.loop encodeFn sysprompt now1 total files i w
        = ExportWorker.loop encodeFn sysprompt now2 total files i w := by
  intro files
  induction files with
  | nil => intro i w; rfl
  | cons f rest ih =>
      intro i w
      rcases hpf : parseFile f with _ | conv
      · rw [loop_skip_eq encodeFn sysprompt now1 total f rest i w hpf,
          loop_skip_eq encodeFn sysprompt now2 total f rest i w hpf, ih]
      · have hc2 : (if needsSystemPrompt conv then addSystemPrompt sysprompt now1 conv else conv)
            = (if needsSystemPrompt conv then addSystemPrompt sysprompt now2 conv else conv) := by
          rw [addSystemPrompt_now_indep sysprompt h now1 now2 conv]
        by_cases hnz : (encodeFn (if needsSystemPrompt conv
            then addSystemPrompt sysprompt now1 conv else conv)).1.length > 0
        · cases happ : w.append
              (encodeFn (if needsSystemPrompt conv
                then addSystemPrompt sysprompt now1 conv else conv)).1
              (encodeFn (if needsSystemPrompt conv
                then addSystemPrompt sysprompt now1 conv else conv)).2 with
          | error err =>
              rw [loop_err_eq encodeFn sysprompt now1 total f rest i w conv err hpf hnz happ,
                loop_err_eq encodeFn sysprompt now2 total f rest i w conv err hpf
                  (by rw [← hc2]; exact hnz) (by rw [← hc2]; exact happ)]
          | ok w2 =>
              rw [loop_ok_eq encodeFn sysprompt now1 total f rest i w w2 conv hpf hnz happ,
                loop_ok_eq encodeFn sysprompt now2 total f rest i w w2 conv hpf
                  (by rw [← hc2]; exact hnz) (by rw [← hc2]; exact happ), ih]
        · rw [loop_empty_eq encodeFn sysprompt now1 total f rest i w conv hpf hnz,
            loop_empty_eq encodeFn sysprompt now2 total f rest i w conv hpf
              (by rw [← hc2]; exact hnz), ih]

/-- C9 amended: the export run is a pure function of the corpus, the
configuration, the sysprompt template and the formatted current datetime;
two runs over an identical corpus and configuration yield identical datasets
whenever no `\x7bdatetime\x7d` substitution takes place — that is, when there
is no sysprompt template or the (stripped) template does not contain the
placeholder.  When the template does contain the placeholder, runs at
different times may differ (see the counterexample). -/
theorem C9_determinism_without_datetime (e : TrainingExporter)
    (sysprompt : Option String) (files : List RawFile)
    (h : sysprompt = none ∨ ∃ t, sysprompt = some t
        ∧ containsSub (pyStrip t).data datetimePlaceholder.data = false)
    (now1 now2 : String) :
    ExportWorker.run e sysprompt now1 files = ExportWorker.run e sysprompt now2 files := by
  simp only [ExportWorker.run, ExportWorker.runWith]
  rw [loop_now_indep (fun conv => e.process_conversation conv) sysprompt h now1 now2
    files.length files 0 HDF5Writer.openNew]

/-- Witness for the amended C9: with no sysprompt template, two runs at
different times over the same one-file corpus coincide. -/
theorem C9_witness :
    ExportWorker.run defaultExporter none "01 January 2025 01:00 AM" [RawFile.json []]
      = ExportWorker.run defaultExporter none "02 January 2025 01:00 AM" [RawFile.json []] :=
  C9_determinism_without_datetime defaultExporter none [RawFile.json []]
    (Or.inl rfl) "01 January 2025 01:00 AM" "02 January 2025 01:00 AM"

/-- Witness for C10 at a concrete record: in the encoding of the empty
conversation, position 0 (inside the begin-of-text emission) carries either
the sentinel or the co-positioned id. -/
theorem C10_witness :
    (defaultExporter.process_conversation []).2.get ⟨0, by decide⟩
        = defaultExporter.config.cross_entropy_ignore_index
      ∨ (defaultExporter.process_conversation []).2.get ⟨0, by decide⟩
        = (defaultExporter.process_conversation []).1.get ⟨0, by decide⟩ :=
  C10_labels_sentinel_or_id defaultExporter [] 0 (by decide) (by decide)

/-- Witness for C3 at a concrete conversation (a non-assistant "user" turn
with one learnable reasoning segment): with reasoning included, the
reasoning-start labels copy the start ids and the interior segment's labels
copy its ids; with reasoning excluded, the block vanishes from the
encoding. -/
theorem C3_witness :
    ((defaultExporter.process_conversation
        [Item.mk "user" [ContentItem.reason [TextSegment.mk "ab" true]]]).2.drop 58).take 7
      = defaultExporter.tokenizer.encode "<think>"
    ∧ ((defaultExporter.process_conversation
        [Item.mk "user" [ContentItem.reason [TextSegment.mk "ab" true]]]).2.drop 65).take 2
      = defaultExporter.tokenizer.encode "ab"
    ∧ noReasonExporter.process_conversation
        [Item.mk "user" [ContentItem.reason [TextSegment.mk "ab" true]]]
      = noReasonExporter.process_conversation [Item.mk "user" []] :=
  ⟨(((C3_reasoning_block defaultExporter [] [] "user" [] []
      [TextSegment.mk "ab" true]).1 rfl).1).2,
   ((((C3_reasoning_block defaultExporter [] [] "user" [] []
      [TextSegment.mk "ab" true]).1 rfl).2.1) [] [] (TextSegment.mk "ab" true) rfl).2,
   (C3_reasoning_block noReasonExporter [] [] "user" [] []
      [TextSegment.mk "ab" true]).2 rfl⟩
